import Mathlib

/-!
A shallow embedding of the `option-lock` crate (src/src/lock.rs, mutex.rs,
once.rs, error.rs).

The crate packs a lock into one atomic byte with two bits:
`FREE` (no guard holds exclusivity) and `SOME` (the slot holds a value).
Every atomic operation of the crate is a single read-modify-write of this
byte.  The model represents a lock as the byte together with the slot
content (`Option T`); while a guard is held, the slot content is tracked
in the guard (the guard has exclusive access to the slot through the lock
pointer), and the guard's release writes it back.  Sequential operations
are pure state-passing functions; the concurrent behaviour is captured by
an atomic-step transition relation (`LockStep`) over configurations
counting live guards.
-/

namespace OptionLockModel

/-- `State::FREE` (src/src/lock.rs line 25): bit 0, set when no guard is held. -/
def FREE : Nat := 1 <<< 0

/-- `State::SOME` (src/src/lock.rs line 26): bit 1, set when the slot holds a value. -/
def SOME : Nat := 1 <<< 1

/-- `State::AVAILABLE = FREE | SOME` (src/src/lock.rs line 27): unlocked and filled. -/
def AVAILABLE : Nat := FREE ||| SOME

/-- The u8 complement `!State::FREE` used by `try_lock`'s `fetch_and`. -/
def NOT_FREE : Nat := 255 ^^^ FREE

/-- `OptionLockError` (src/src/error.rs lines 5-10). -/
inductive OptionLockError where
  | FillState
  | Unavailable
deriving DecidableEq, Repr

/-- `MutexLockError` (src/src/error.rs lines 26-31). -/
inductive MutexLockError where
  | Poisoned
  | Unavailable
deriving DecidableEq, Repr

/-- `PoisonError` (src/src/error.rs line 47). -/
inductive PoisonError where
  | mk
deriving DecidableEq, Repr

/-- `OptionLock<T>` (src/src/lock.rs lines 71-74): the slot (`UnsafeCell<MaybeUninit<T>>`,
modelled as `Option T`, `none` = uninitialized) and the atomic state byte.
While a guard is held the live slot content is tracked in the guard, which has
exclusive access; `data` then reads `none` in the model. -/
structure OptionLock (T : Type) where
  data : Option T
  state : Nat
deriving DecidableEq, Repr

/-- `OptionGuard<'a, T>` (src/src/lock.rs lines 377-380): the guard's locally
tracked `is_some` flag, together with the slot content it exclusively owns
(in the source, reached through the `lock` reference). -/
structure OptionGuard (T : Type) where
  slot : Option T
  is_some : Bool
deriving DecidableEq, Repr

/-- `MutexGuard<'a, T>` (src/src/mutex.rs line 122): a wrapper around `OptionGuard`. -/
structure MutexGuard (T : Type) where
  inner : OptionGuard T
deriving DecidableEq, Repr

namespace OptionGuard

variable {T : Type}

/-- `OptionGuard::as_ref` (src/src/lock.rs lines 391-397). -/
def as_ref (g : OptionGuard T) : Option T :=
  if g.is_some then g.slot else none

/-- `OptionGuard::is_none` (src/src/lock.rs lines 410-412). -/
def is_none (g : OptionGuard T) : Bool :=
  !g.is_some

/-- `OptionGuard::replace` (src/src/lock.rs lines 421-431): returns the prior
value when `is_some`, otherwise sets the flag; either way the slot now holds
`value`. -/
def replace (g : OptionGuard T) (value : T) : Option T × OptionGuard T :=
  if g.is_some then
    (g.slot, { slot := some value, is_some := true })
  else
    (none, { slot := some value, is_some := true })

/-- `OptionGuard::take` (src/src/lock.rs lines 434-441): reads the value out
and clears the flag when `is_some`. -/
def take (g : OptionGuard T) : Option T × OptionGuard T :=
  if g.is_some then
    (g.slot, { slot := none, is_some := false })
  else
    (none, g)

/-- The byte stored by `OptionGuard::drop` (src/src/lock.rs lines 450-461):
`AVAILABLE` when the tracked flag is set, else `FREE`.  It is a plain store;
it does not depend on the current byte. -/
def drop_state (g : OptionGuard T) : Nat :=
  if g.is_some then AVAILABLE else FREE

/-- `OptionGuard::drop` (src/src/lock.rs lines 450-461): the unconditional
release store, publishing the tracked flag and returning slot ownership to
the lock. -/
def release (g : OptionGuard T) : OptionLock T :=
  { data := g.slot, state := g.drop_state }

end OptionGuard

namespace OptionLock

variable {T : Type}

/-- `OptionLock::empty` (src/src/lock.rs lines 87-92). -/
def empty : OptionLock T :=
  { data := none, state := FREE }

/-- `OptionLock::new` (src/src/lock.rs lines 95-100). -/
def new (value : T) : OptionLock T :=
  { data := some value, state := AVAILABLE }

/-- `OptionLock::is_none_unlocked` (src/src/lock.rs lines 114-116). -/
def is_none_unlocked (l : OptionLock T) : Bool :=
  l.state == FREE

/-- `OptionLock::is_some_unlocked` (src/src/lock.rs lines 120-122). -/
def is_some_unlocked (l : OptionLock T) : Bool :=
  l.state == AVAILABLE

/-- `OptionLock::is_some` (src/src/lock.rs lines 125-127). -/
def is_some (l : OptionLock T) : Bool :=
  l.state &&& SOME != 0

/-- `OptionLock::is_locked` (src/src/lock.rs lines 131-133). -/
def is_locked (l : OptionLock T) : Bool :=
  l.state &&& FREE == 0

/-- `OptionLock::into_inner` (src/src/lock.rs lines 145-152). -/
def into_inner (l : OptionLock T) : Option T :=
  if l.state &&& SOME != 0 then l.data else none

/-- `OptionLock::try_lock` (src/src/lock.rs lines 255-262):
`fetch_and(!FREE)`; succeeds iff the previous byte had `FREE` set, seeding the
guard with the previous `SOME` bit.  Returns the result together with the
lock as left by the operation. -/
def try_lock (l : OptionLock T) :
    Except OptionLockError (OptionGuard T) × OptionLock T :=
  if l.state &&& FREE != 0 then
    (.ok { slot := l.data, is_some := l.state &&& SOME != 0 },
      { data := none, state := l.state &&& NOT_FREE })
  else
    (.error .Unavailable, { data := l.data, state := l.state &&& NOT_FREE })

/-- `OptionLock::try_lock_none` (src/src/lock.rs lines 275-284):
compare-and-swap `FREE -> 0`; `AVAILABLE` reports `FillState`, anything else
`Unavailable`. -/
def try_lock_none (l : OptionLock T) :
    Except OptionLockError (OptionGuard T) × OptionLock T :=
  if l.state == FREE then
    (.ok { slot := l.data, is_some := false }, { data := none, state := 0 })
  else if l.state == AVAILABLE then
    (.error .FillState, l)
  else
    (.error .Unavailable, l)

/-- `OptionLock::try_get` (src/src/lock.rs lines 206-217):
compare-and-swap `AVAILABLE -> SOME`; `FREE` reports `FillState`, anything
else `Unavailable`. -/
def try_get (l : OptionLock T) :
    Except OptionLockError (MutexGuard T) × OptionLock T :=
  if l.state == AVAILABLE then
    (.ok ⟨{ slot := l.data, is_some := true }⟩, { data := none, state := SOME })
  else if l.state == FREE then
    (.error .FillState, l)
  else
    (.error .Unavailable, l)

/-- `OptionLock::try_fill` (src/src/lock.rs lines 230-241):
compare-and-swap `FREE -> 0`, then `OptionGuard::new(self, false).replace(value)`
and the temporary guard's drop publishes the state. -/
def try_fill (l : OptionLock T) (value : T) : Except T Unit × OptionLock T :=
  if l.state == FREE then
    let g0 : OptionGuard T := { slot := l.data, is_some := false }
    let r := g0.replace value
    (.ok (), r.2.release)
  else
    (.error value, l)

/-- `OptionLock::try_fill_with` (src/src/lock.rs lines 246-249):
`self.try_lock_none()?.replace(f())`, the temporary guard's drop publishing
the state.  The extra `Bool` records whether the closure `f` was invoked
(it is evaluated only after `try_lock_none` succeeds). -/
def try_fill_with (l : OptionLock T) (f : Unit → T) :
    (Except OptionLockError Unit × OptionLock T) × Bool :=
  match l.try_lock_none with
  | (.ok g, _) =>
    let r := g.replace (f ())
    ((.ok (), r.2.release), true)
  | (.error e, l1) => ((.error e, l1), false)

end OptionLock

namespace MutexGuard

variable {T : Type}

/-- `MutexGuard::extract` (src/src/mutex.rs lines 134-136): `self.0.take().unwrap()`
(the `Option` models the `unwrap`), after which the consumed guard's drop
releases the lock. -/
def extract (m : MutexGuard T) : Option T × OptionLock T :=
  let r := m.inner.take
  (r.1, r.2.release)

/-- `MutexGuard::drop` under the `std` feature (src/src/mutex.rs lines 165-173)
followed by the inner `OptionGuard::drop`: when the thread is panicking and
the guard is filled, the value is taken (and dropped) first, so the release
publishes `FREE`; otherwise the ordinary release runs. -/
def drop_release (m : MutexGuard T) (panicking : Bool) : OptionLock T :=
  let g := if m.inner.is_some && panicking then (m.inner.take).2 else m.inner
  g.release

end MutexGuard

namespace OptionLock

variable {T : Type}

/-- `OptionLock::try_take` (src/src/lock.rs lines 295-297):
`self.try_get().map(MutexGuard::extract)`. -/
def try_take (l : OptionLock T) :
    Except OptionLockError (Option T) × OptionLock T :=
  match l.try_get with
  | (.ok m, _) =>
    let r := m.extract
    (.ok r.1, r.2)
  | (.error e, l1) => (.error e, l1)

end OptionLock

/-- `Mutex<T>` (src/src/mutex.rs lines 19-21). -/
structure Mutex (T : Type) where
  inner : OptionLock T
deriving DecidableEq, Repr

namespace Mutex

variable {T : Type}

/-- `Mutex::new` (src/src/mutex.rs lines 25-29). -/
def new (value : T) : Mutex T :=
  ⟨OptionLock.new value⟩

/-- `Mutex::is_poisoned` (src/src/mutex.rs lines 49-51). -/
def is_poisoned (m : Mutex T) : Bool :=
  !m.inner.is_some

/-- `Mutex::into_inner` (src/src/mutex.rs lines 59-61):
`self.inner.into_inner().ok_or(PoisonError)`. -/
def into_inner (m : Mutex T) : Except PoisonError T :=
  match m.inner.into_inner with
  | some v => .ok v
  | none => .error .mk

/-- `Mutex::try_lock` (src/src/mutex.rs lines 65-71): delegates to
`OptionLock::try_get`, mapping `FillState` to `Poisoned` and passing
`Unavailable` through. -/
def try_lock (m : Mutex T) :
    Except MutexLockError (MutexGuard T) × Mutex T :=
  match m.inner.try_get with
  | (.ok g, l1) => (.ok g, ⟨l1⟩)
  | (.error .FillState, l1) => (.error .Poisoned, ⟨l1⟩)
  | (.error .Unavailable, l1) => (.error .Unavailable, ⟨l1⟩)

end Mutex

/-- `OnceCell<T>` (src/src/once.rs line 12). -/
structure OnceCell (T : Type) where
  inner : OptionLock T
deriving DecidableEq, Repr

namespace OnceCell

variable {T : Type} {E : Type}

/-- `OnceCell::empty` (src/src/once.rs lines 16-18). -/
def empty : OnceCell T :=
  ⟨OptionLock.empty⟩

/-- `OnceCell::get` (src/src/once.rs lines 26-33): reads the slot when the
`SOME` bit is set. -/
def get (c : OnceCell T) : Option T :=
  if c.inner.is_some then c.inner.data else none

/-- `OnceCell::get_or_try_init` (src/src/once.rs lines 65-84), terminating
paths.  The result carries the returned reference (as the value read from the
slot) and the updated cell, plus a `Bool` recording whether the initializer
closure was invoked.  The `Err(Unavailable)` arm of the source is
`loop { while !is_some_unlocked { spin_loop() } }`, which never exits; it is
encoded here as `none` and modelled step by step in `unavailable_spin`. -/
def get_or_try_init (c : OnceCell T) (init : Unit → Except E T) :
    Option ((Except E (Option T) × OnceCell T) × Bool) :=
  match c.get with
  | some v => some ((.ok (some v), c), false)
  | none =>
    match c.inner.try_lock_none with
    | (.ok g, _) =>
      match init () with
      | .ok v =>
        let r := g.replace v
        let c1 : OnceCell T := ⟨r.2.release⟩
        some ((.ok c1.inner.data, c1), true)
      | .error e => some ((.error e, ⟨g.release⟩), true)
    | (.error .FillState, l1) => some ((.ok l1.data, ⟨l1⟩), false)
    | (.error .Unavailable, _) => none

/-- `OnceCell::get_or_init` (src/src/once.rs lines 42-61), terminating paths,
with the same conventions as `get_or_try_init`. -/
def get_or_init (c : OnceCell T) (init : Unit → T) :
    Option ((Option T × OnceCell T) × Bool) :=
  match c.get with
  | some v => some ((some v, c), false)
  | none =>
    match c.inner.try_lock_none with
    | (.ok g, _) =>
      let r := g.replace (init ())
      let c1 : OnceCell T := ⟨r.2.release⟩
      some ((c1.inner.data, c1), true)
    | (.error .FillState, l1) => some ((l1.data, ⟨l1⟩), false)
    | (.error .Unavailable, _) => none

end OnceCell

/-!
Step-indexed model of the `Err(Unavailable)` arm of `OnceCell::get_or_init`
and `get_or_try_init` (src/src/once.rs lines 54-58 and 77-81):

    Err(OptionLockError::Unavailable) => loop {
        while !self.0.is_some_unlocked() {
            spin_loop();
        }
    },

`obs t` is the state byte the spinning thread observes at its `t`-th read
(the environment: the other threads' effects on the byte).  `fuel` bounds the
number of small steps taken; `some` means the construct finished within the
fuel, `none` that it is still running.
-/

/-- The inner `while !self.0.is_some_unlocked() { spin_loop(); }`: spins until
the observed byte equals `AVAILABLE`, returning the time at which the loop
exits. -/
def spin_while_not_some (obs : Nat → Nat) (t : Nat) : Nat → Option Nat
  | 0 => none
  | fuel + 1 => if obs t == AVAILABLE then some t else spin_while_not_some obs (t + 1) fuel

/-- The outer `loop { ... }` wrapping the busy-wait: each iteration runs the
inner `while`; the loop body contains no `break`, so after the `while` exits
the loop runs it again.  A `some` result would correspond to the `loop`
exiting. -/
def unavailable_spin (obs : Nat → Nat) (t : Nat) : Nat → Option Nat
  | 0 => none
  | fuel + 1 =>
    match spin_while_not_some obs t (fuel + 1) with
    | none => none
    | some t1 => unavailable_spin obs (t1 + 1) fuel

/-!
Atomic-step interleaving semantics for mutual exclusion (claim C1).

Every acquisition or release in the crate is one atomic read-modify-write of
the state byte (`fetch_and` in `try_lock`, `compare_exchange` in
`try_lock_none` / `try_get` / `try_fill`, the release `store` in
`OptionGuard::drop`); the spin variants and the composite operations
(`try_fill`, `try_fill_with`, `try_take`) only iterate or sequence these
atomic steps.  A configuration is the state byte together with the number of
live guards; any number of threads may interleave steps arbitrarily.
-/

/-- A configuration of one lock under concurrent access: the state byte and
the number of live (not yet dropped) guards. -/
structure LockConfig where
  byte : Nat
  guards : Nat
deriving DecidableEq, Repr

/-- One atomic step by some thread against the lock: a successful or failed
`try_lock` (`fetch_and !FREE`), a successful or failed compare-and-swap from
`try_lock_none` / `try_fill` (`FREE -> 0`) or `try_get` (`AVAILABLE -> SOME`),
or a guard release (`OptionGuard::drop`, enabled only for a live guard,
storing the guard's tracked flag). -/
inductive LockStep : LockConfig → LockConfig → Prop where
  | try_lock_ok : ∀ s g, s &&& FREE ≠ 0 →
      LockStep ⟨s, g⟩ ⟨s &&& NOT_FREE, g + 1⟩
  | try_lock_fail : ∀ s g, s &&& FREE = 0 →
      LockStep ⟨s, g⟩ ⟨s &&& NOT_FREE, g⟩
  | try_lock_none_ok : ∀ g,
      LockStep ⟨FREE, g⟩ ⟨0, g + 1⟩
  | try_lock_none_fail : ∀ s g, s ≠ FREE →
      LockStep ⟨s, g⟩ ⟨s, g⟩
  | try_get_ok : ∀ g,
      LockStep ⟨AVAILABLE, g⟩ ⟨SOME, g + 1⟩
  | try_get_fail : ∀ s g, s ≠ AVAILABLE →
      LockStep ⟨s, g⟩ ⟨s, g⟩
  | release : ∀ s g (flag : Bool), 0 < g →
      LockStep ⟨s, g⟩ ⟨if flag then AVAILABLE else FREE, g - 1⟩

/-- Configurations reachable from a freshly constructed lock
(`OptionLock::empty` starts at byte `FREE`, `OptionLock::new` at
`AVAILABLE`, each with no guard) by arbitrary interleaving of atomic steps. -/
inductive LockReach : LockConfig → Prop where
  | init_empty : LockReach ⟨FREE, 0⟩
  | init_filled : LockReach ⟨AVAILABLE, 0⟩
  | next : ∀ c c', LockReach c → LockStep c c' → LockReach c'

/-- The inductive invariant for mutual exclusion: the byte stays in the four
reachable values, at most one guard is live, and a live guard implies the
`FREE` bit is clear. -/
def LockInv (c : LockConfig) : Prop :=
  c.byte < 4 ∧ c.guards ≤ 1 ∧ (c.guards = 1 → c.byte &&& FREE = 0)

end OptionLockModel

open OptionLockModel

theorem lockStep_preserves_inv {c c' : LockConfig}
    (h : LockInv c) (hs : LockStep c c') : LockInv c' := by
  obtain ⟨hb, hg, himp⟩ := h
  cases hs with
  | try_lock_ok s g hfree =>
    have hbs : s < 4 := hb
    have hg0 : g = 0 := by
      rcases Nat.le_one_iff_eq_zero_or_eq_one.mp hg with h0 | h1
      · exact h0
      · exact absurd (himp h1) hfree
    subst hg0
    have h4 : s &&& NOT_FREE < 4 ∧ s &&& NOT_FREE &&& FREE = 0 := by
      interval_cases s
      · exact absurd hfree (by decide)
      · decide
      · exact absurd hfree (by decide)
      · decide
    exact ⟨h4.1, Nat.le_refl 1, fun _ => h4.2⟩
  | try_lock_fail s g hfree =>
    have hbs : s < 4 := hb
    have h4 : s &&& NOT_FREE < 4 ∧ s &&& NOT_FREE &&& FREE = 0 := by
      interval_cases s
      · decide
      · exact absurd hfree (by decide)
      · decide
      · exact absurd hfree (by decide)
    exact ⟨h4.1, hg, fun _ => h4.2⟩
  | try_lock_none_ok g =>
    have hg0 : g = 0 := by
      rcases Nat.le_one_iff_eq_zero_or_eq_one.mp hg with h0 | h1
      · exact h0
      · exact absurd (himp h1) (by decide : ¬(FREE &&& FREE = 0))
    subst hg0
    exact ⟨by decide, by decide, fun _ => by decide⟩
  | try_lock_none_fail s g hne =>
    exact ⟨hb, hg, himp⟩
  | try_get_ok g =>
    have hg0 : g = 0 := by
      rcases Nat.le_one_iff_eq_zero_or_eq_one.mp hg with h0 | h1
      · exact h0
      · exact absurd (himp h1) (by decide : ¬(AVAILABLE &&& FREE = 0))
    subst hg0
    exact ⟨by decide, by decide, fun _ => by decide⟩
  | try_get_fail s g hne =>
    exact ⟨hb, hg, himp⟩
  | release s g flag hpos =>
    have hg1 : g = 1 := by
      have : g ≤ 1 := hg
      omega
    subst hg1
    cases flag
    · exact ⟨by decide, by decide, fun h => absurd h (by decide)⟩
    · exact ⟨by decide, by decide, fun h => absurd h (by decide)⟩

theorem lockReach_inv {c : LockConfig} (h : LockReach c) : LockInv c := by
  induction h with
  | init_empty => exact ⟨by decide, by decide, fun h => absurd h (by decide)⟩
  | init_filled => exact ⟨by decide, by decide, fun h => absurd h (by decide)⟩
  | next c c' _ hstep ih => exact lockStep_preserves_inv ih hstep

/-- C1: Mutual exclusion.  For every lock and any number of threads issuing
concurrent acquisition attempts (`try_lock`, `try_lock_none`, `try_get`,
`try_take`, `try_fill` and the spin variants, all of which are iterations or
sequencings of the atomic steps of `LockStep`), every configuration reachable
from a freshly constructed lock under arbitrary interleaving has at most one
live guard outstanding. -/
theorem c1_mutual_exclusion (c : LockConfig) (h : LockReach c) : c.guards ≤ 1 :=
  (lockReach_inv h).2.1

theorem c1_mutual_exclusion_witness :
    (⟨0, 1⟩ : LockConfig).guards ≤ 1 :=
  c1_mutual_exclusion ⟨0, 1⟩
    (LockReach.next _ _ LockReach.init_empty (LockStep.try_lock_none_ok 0))

/-- C2: `try_lock` succeeds exactly when the lock is unlocked, regardless of
slot occupancy; a successful guard's tracked fill flag equals the `SOME` bit
observed at acquisition; when already held it fails with `Unavailable` and
the lock (state byte included) is unchanged, the `FREE` bit having already
been clear.  The byte ranges over the four reachable values. -/
theorem c2_try_lock_characterization {T : Type} (l : OptionLock T)
    (hb : l.state < 4) :
    ((l.try_lock).1.isOk = true ↔ l.is_locked = false) ∧
    (∀ g : OptionGuard T, (l.try_lock).1 = .ok g → g.is_some = l.is_some) ∧
    (l.is_locked = true → l.try_lock = (.error .Unavailable, l)) := by
  obtain ⟨d, s⟩ := l
  have hs : s < 4 := hb
  interval_cases s <;>
    simp [OptionLock.try_lock, OptionLock.is_locked, OptionLock.is_some,
      FREE, SOME, NOT_FREE] <;>
    first
    | rfl
    | exact ⟨rfl, rfl⟩

theorem c2_try_lock_characterization_witness :
    ((((⟨some 5, 3⟩ : OptionLock Nat).try_lock).1.isOk = true ↔
        (⟨some 5, 3⟩ : OptionLock Nat).is_locked = false) ∧
      (∀ g : OptionGuard Nat,
        ((⟨some 5, 3⟩ : OptionLock Nat).try_lock).1 = .ok g →
          g.is_some = (⟨some 5, 3⟩ : OptionLock Nat).is_some) ∧
      ((⟨some 5, 3⟩ : OptionLock Nat).is_locked = true →
        (⟨some 5, 3⟩ : OptionLock Nat).try_lock = (.error .Unavailable, ⟨some 5, 3⟩))) :=
  c2_try_lock_characterization (⟨some 5, 3⟩ : OptionLock Nat) (by decide)

/-- C3: Idempotent release.  For every lock state in which acquisition
succeeds via `try_lock`, `try_lock_none` or `try_get`, dropping the obtained
guard without mutating it restores the lock exactly (state byte and slot);
and the release store is determined by the guard's tracked flag alone
(`AVAILABLE` when set, `FREE` otherwise), independent of the byte at release
time -- a plain store, not a compare-and-swap. -/
theorem c3_idempotent_release {T : Type} (l : OptionLock T)
    (hb : l.state < 4) :
    (∀ (g : OptionGuard T) (l1 : OptionLock T),
      l.try_lock = (.ok g, l1) → g.release = l) ∧
    (∀ (g : OptionGuard T) (l1 : OptionLock T),
      l.try_lock_none = (.ok g, l1) → g.release = l) ∧
    (∀ (m : MutexGuard T) (l1 : OptionLock T),
      l.try_get = (.ok m, l1) → m.inner.release = l) ∧
    (∀ g : OptionGuard T,
      (g.release).state = if g.is_some then AVAILABLE else FREE) := by
  obtain ⟨d, s⟩ := l
  have hs : s < 4 := hb
  refine ⟨?_, ?_, ?_, fun g => rfl⟩ <;>
    (intro g l1 h; revert h) <;>
    interval_cases s <;>
    simp [OptionLock.try_lock, OptionLock.try_lock_none, OptionLock.try_get,
      OptionGuard.release, OptionGuard.drop_state,
      FREE, SOME, NOT_FREE, AVAILABLE] <;>
    (rintro rfl ⟨⟩; first | rfl | exact ⟨rfl, rfl⟩)

theorem c3_idempotent_release_witness :
    ((∀ (g : OptionGuard Nat) (l1 : OptionLock Nat),
      (⟨some 5, 3⟩ : OptionLock Nat).try_lock = (.ok g, l1) →
        g.release = (⟨some 5, 3⟩ : OptionLock Nat)) ∧
    (∀ (g : OptionGuard Nat) (l1 : OptionLock Nat),
      (⟨some 5, 3⟩ : OptionLock Nat).try_lock_none = (.ok g, l1) →
        g.release = (⟨some 5, 3⟩ : OptionLock Nat)) ∧
    (∀ (m : MutexGuard Nat) (l1 : OptionLock Nat),
      (⟨some 5, 3⟩ : OptionLock Nat).try_get = (.ok m, l1) →
        m.inner.release = (⟨some 5, 3⟩ : OptionLock Nat)) ∧
    (∀ g : OptionGuard Nat,
      (g.release).state = if g.is_some then AVAILABLE else FREE)) :=
  c3_idempotent_release (⟨some 5, 3⟩ : OptionLock Nat) (by decide)

/-- C4: Fill-state conservation.  On an unlocked empty lock (byte `FREE`) the
occupied-claims `try_get` and `try_take` fail with `FillState`; on an
unlocked filled lock (byte `AVAILABLE`) the empty-claim `try_lock_none`
fails with `FillState`; a freshly constructed empty lock reports
`is_none_unlocked` and a freshly constructed filled lock reports
`is_some_unlocked`; when a guard is held both claims fail with `Unavailable`
instead; and each failing call leaves the lock unchanged. -/
theorem c4_fill_state_conservation {T : Type} (v : T) (l : OptionLock T) :
    (l.state = FREE →
      l.try_get = (.error .FillState, l) ∧
      l.try_take = (.error .FillState, l)) ∧
    (l.state = AVAILABLE →
      l.try_lock_none = (.error .FillState, l)) ∧
    (OptionLock.empty : OptionLock T).is_none_unlocked = true ∧
    (OptionLock.new v).is_some_unlocked = true ∧
    (l.is_locked = true →
      l.try_get = (.error .Unavailable, l) ∧
      l.try_lock_none = (.error .Unavailable, l)) := by
  refine ⟨?_, ?_, rfl, rfl, ?_⟩
  · rintro h
    obtain ⟨d, s⟩ := l
    have : s = 1 := h
    subst this
    exact ⟨rfl, rfl⟩
  · rintro h
    obtain ⟨d, s⟩ := l
    have : s = 3 := h
    subst this
    rfl
  · intro h
    obtain ⟨d, s⟩ := l
    have hmod : s % 2 = 0 := by
      have h1 : s &&& 1 = 0 := by
        simpa [OptionLock.is_locked, FREE] using h
      simpa [Nat.and_one_is_mod] using h1
    have h1 : s ≠ 1 := by omega
    have h3 : s ≠ 3 := by omega
    constructor
    · simp [OptionLock.try_get, AVAILABLE, FREE, SOME, h1, h3]
    · simp [OptionLock.try_lock_none, AVAILABLE, FREE, SOME, h1, h3]

theorem c4_fill_state_conservation_witness :
    (⟨none, 1⟩ : OptionLock Nat).try_get = (.error .FillState, ⟨none, 1⟩) ∧
    (⟨none, 1⟩ : OptionLock Nat).try_take = (.error .FillState, ⟨none, 1⟩) :=
  (c4_fill_state_conservation 7 (⟨none, 1⟩ : OptionLock Nat)).1 rfl

/-- C5: Mutex error mapping and poisoning.  `Mutex::try_lock` maps the inner
lock's `FillState` error to `Poisoned` and passes `Unavailable` (and success)
through unchanged; after a guard obtained from `Mutex::new v` has its value
extracted, the released lock is `{data := none, state := FREE}`, on which a
subsequent `try_lock` reports `Poisoned` and `into_inner` reports
`PoisonError` instead of a value. -/
theorem c5_mutex_error_mapping_and_poisoning {T : Type} (m : Mutex T) (v : T) :
    ((m.inner.try_get).1 = .error .FillState → (m.try_lock).1 = .error .Poisoned) ∧
    ((m.inner.try_get).1 = .error .Unavailable → (m.try_lock).1 = .error .Unavailable) ∧
    (∀ (g : MutexGuard T) (l1 : OptionLock T),
      m.inner.try_get = (.ok g, l1) → m.try_lock = (.ok g, ⟨l1⟩)) ∧
    ((Mutex.new v).try_lock = (.ok ⟨⟨some v, true⟩⟩, ⟨⟨none, SOME⟩⟩)) ∧
    ((MutexGuard.mk ⟨some v, true⟩).extract = (some v, ⟨none, FREE⟩)) ∧
    ((Mutex.mk (⟨none, FREE⟩ : OptionLock T)).try_lock).1 = .error .Poisoned ∧
    ((Mutex.mk (⟨none, FREE⟩ : OptionLock T)).into_inner = .error .mk) := by
  refine ⟨?_, ?_, ?_, rfl, rfl, rfl, ?into⟩
  case into =>
    simp [Mutex.into_inner, OptionLock.into_inner, FREE, SOME]
  · intro h
    rcases hg : m.inner.try_get with ⟨r, l1⟩
    rw [hg] at h
    simp at h
    subst h
    simp [Mutex.try_lock, hg]
  · intro h
    rcases hg : m.inner.try_get with ⟨r, l1⟩
    rw [hg] at h
    simp at h
    subst h
    simp [Mutex.try_lock, hg]
  · intro g l1 h
    simp [Mutex.try_lock, h]

theorem c5_mutex_error_mapping_and_poisoning_witness :
    ((Mutex.mk (⟨none, 1⟩ : OptionLock Nat)).try_lock).1 = .error .Poisoned :=
  ((c5_mutex_error_mapping_and_poisoning (Mutex.mk (⟨none, 1⟩ : OptionLock Nat)) 7).1) rfl

/-- C6 counterexample: a `MutexGuard` over `some 5` released while the thread
is panicking (the abrupt-unwinding exit path, `MutexGuard::drop` under the
`std` feature) publishes `{data := none, state := FREE}` -- not the filled
`AVAILABLE` state -- leaving the mutex poisoned although `extract` was never
called.  This falsifies the claim that every non-`extract` release, including
unwinding exits, republishes the filled state. -/
theorem c6_counterexample :
    (MutexGuard.mk (⟨some 5, true⟩ : OptionGuard Nat)).drop_release true
      = (⟨none, FREE⟩ : OptionLock Nat) ∧
    (⟨none, FREE⟩ : OptionLock Nat).state ≠ AVAILABLE ∧
    (Mutex.mk (⟨none, FREE⟩ : OptionLock Nat)).is_poisoned = true := by
  refine ⟨rfl, by decide, by decide⟩

/-- C6 amended: the poisoning paths of a `Mutex` are the guard's explicit
`extract` and, under the `std` feature, a guard release during a panic
(`MutexGuard::drop` deliberately takes the value when the thread is
panicking); an ordinary non-panicking release of a filled guard republishes
the filled `AVAILABLE` state, while a panicking release or an `extract`
publishes `FREE`. -/
theorem c6_poisoning_paths {T : Type} (m : MutexGuard T)
    (h : m.inner.is_some = true) :
    m.drop_release false = { data := m.inner.slot, state := AVAILABLE } ∧
    m.drop_release true = { data := none, state := FREE } ∧
    (m.extract).2 = { data := none, state := FREE } := by
  refine ⟨?_, ?_, ?_⟩ <;>
    simp [MutexGuard.drop_release, MutexGuard.extract, OptionGuard.take,
      OptionGuard.release, OptionGuard.drop_state, h]

theorem c6_poisoning_paths_witness :
    (MutexGuard.mk (⟨some 5, true⟩ : OptionGuard Nat)).drop_release false
      = { data := some 5, state := AVAILABLE } ∧
    (MutexGuard.mk (⟨some 5, true⟩ : OptionGuard Nat)).drop_release true
      = { data := none, state := FREE } ∧
    ((MutexGuard.mk (⟨some 5, true⟩ : OptionGuard Nat)).extract).2
      = { data := none, state := FREE } :=
  c6_poisoning_paths (MutexGuard.mk (⟨some 5, true⟩ : OptionGuard Nat)) rfl

/-- C7: Guard round trip.  For every guard whose tracked flag agrees with the
slot (as every guard produced by the lock maintains), `replace v` returns the
previously stored value (`none` when the slot was empty), a subsequent read
through the guard yields `v`, and `take()` followed by `replace v` leaves the
guard -- slot content, fill flag, and hence the state published on release --
identical to a single `replace v`. -/
theorem c7_guard_round_trip {T : Type} (g : OptionGuard T) (v : T)
    (h : g.is_some = g.slot.isSome) :
    ((g.replace v).1 = g.slot) ∧
    ((g.replace v).2.as_ref = some v) ∧
    (((g.take).2.replace v).2 = (g.replace v).2) ∧
    (((g.take).2.replace v).2.drop_state = (g.replace v).2.drop_state) := by
  cases hg : g.is_some with
  | true =>
    simp [OptionGuard.replace, OptionGuard.take, OptionGuard.as_ref, hg]
  | false =>
    rw [hg] at h
    cases hs : g.slot with
    | some x => rw [hs] at h; simp at h
    | none =>
      simp [OptionGuard.replace, OptionGuard.take, OptionGuard.as_ref, hg, hs]

theorem c7_guard_round_trip_witness :
    (((⟨some 2, true⟩ : OptionGuard Nat).replace 7).1 = some 2) ∧
    (((⟨some 2, true⟩ : OptionGuard Nat).replace 7).2.as_ref = some 7) ∧
    ((((⟨some 2, true⟩ : OptionGuard Nat).take).2.replace 7).2
      = ((⟨some 2, true⟩ : OptionGuard Nat).replace 7).2) ∧
    ((((⟨some 2, true⟩ : OptionGuard Nat).take).2.replace 7).2.drop_state
      = ((⟨some 2, true⟩ : OptionGuard Nat).replace 7).2.drop_state) :=
  c7_guard_round_trip (⟨some 2, true⟩ : OptionGuard Nat) 7 rfl

/-- C8 counterexample: on an unlocked lock whose slot is already filled
(byte `AVAILABLE`), `try_fill_with` fails with the `FillState` error -- not
`Unavailable` -- because it propagates `try_lock_none`'s error unchanged.
This falsifies the claim that `try_fill_with` fails only with `Unavailable`. -/
theorem c8_counterexample :
    ((((⟨some 7, 3⟩ : OptionLock Nat).try_fill_with (fun _ => 9)).1).1
      = .error .FillState) ∧
    (OptionLockError.FillState ≠ OptionLockError.Unavailable) := by
  exact ⟨rfl, by decide⟩

/-- C8 amended: `try_fill_with(closure)` either returns `Ok` -- having stored
the closure's result and left the lock unlocked-and-filled -- or fails with
the `FillState` error (lock unlocked but slot already filled) or the
`Unavailable` error (lock held by a guard); on an unlocked lock whose slot is
already filled the reported failure is `FillState`; and whenever the call
fails the closure is never invoked. -/
theorem c8_try_fill_with_behaviour {T : Type} (l : OptionLock T) (f : Unit → T) :
    (l.state = FREE →
      l.try_fill_with f
        = ((.ok (), { data := some (f ()), state := AVAILABLE }), true)) ∧
    (l.state = AVAILABLE →
      l.try_fill_with f = ((.error .FillState, l), false)) ∧
    (l.is_locked = true →
      l.try_fill_with f = ((.error .Unavailable, l), false)) ∧
    (∀ (e : OptionLockError) (l1 : OptionLock T),
      (l.try_fill_with f).1 = (.error e, l1) → (l.try_fill_with f).2 = false) := by
  obtain ⟨d, s⟩ := l
  refine ⟨?_, ?_, ?_, ?_⟩
  · intro h
    have : s = 1 := h
    subst this
    rfl
  · intro h
    have : s = 3 := h
    subst this
    rfl
  · intro h
    have hmod : s % 2 = 0 := by
      have h1 : s &&& 1 = 0 := by
        simpa [OptionLock.is_locked, FREE] using h
      simpa [Nat.and_one_is_mod] using h1
    have h1 : s ≠ 1 := by omega
    have h3 : s ≠ 3 := by omega
    simp [OptionLock.try_fill_with, OptionLock.try_lock_none,
      AVAILABLE, FREE, SOME, h1, h3]
  · intro e l1 h
    rcases hr : OptionLock.try_lock_none ⟨d, s⟩ with ⟨r, l2⟩
    cases r with
    | ok g => simp [OptionLock.try_fill_with, hr] at h
    | error e2 => simp [OptionLock.try_fill_with, hr]

theorem c8_try_fill_with_behaviour_witness :
    (⟨none, 1⟩ : OptionLock Nat).try_fill_with (fun _ => 5)
      = ((.ok (), { data := some 5, state := AVAILABLE }), true) :=
  (c8_try_fill_with_behaviour (⟨none, 1⟩ : OptionLock Nat) (fun _ => 5)).1 rfl

/-- C9: the `Err(Unavailable)` arm of `OnceCell::get_or_init` /
`get_or_try_init` (src/src/once.rs lines 54-58 and 77-81) is
`loop { while !is_some_unlocked { spin_loop() } }` -- an outer `loop` whose
body contains no `break`.  The first conjunct shows the arm never terminates
for ANY observation sequence and any step budget, in particular even when
every observation of the state byte is `AVAILABLE` (the cell permanently
unlocked-and-filled); the second shows the inner busy-wait alone (what the
claim and the function's documentation describe) would exit immediately in
that situation.  The claim that a loser terminates once the cell is filled is
therefore right about the intent and wrong about the code. -/
theorem c9_loser_never_terminates :
    (∀ (obs : Nat → Nat) (t fuel : Nat), unavailable_spin obs t fuel = none) ∧
    (∀ fuel : Nat, unavailable_spin (fun _ => AVAILABLE) 0 fuel = none) ∧
    (spin_while_not_some (fun _ => AVAILABLE) 0 1 = some 0) := by
  have key : ∀ (obs : Nat → Nat) (fuel t : Nat), unavailable_spin obs t fuel = none := by
    intro obs fuel
    induction fuel with
    | zero => intro t; rfl
    | succ n ih =>
      intro t
      rw [unavailable_spin]
      cases h : spin_while_not_some obs t (n + 1) with
      | none => rfl
      | some t1 => exact ih (t1 + 1)
  exact ⟨fun obs t fuel => key obs fuel t, fun fuel => key _ fuel 0, rfl⟩

/-- C10: atomicity of fallible initialization on error.  On an
unlocked-and-empty `OnceCell`, if the winning caller's initializer passed to
`get_or_try_init` returns an error, the call terminates returning that error
and the cell is left unlocked and empty (the guard's drop republishes
`FREE`), so a subsequent `get_or_try_init` call on the resulting cell runs
its initializer again (the `Bool` component records the invocation) and can
succeed. -/
theorem c10_failed_init_leaves_cell_empty {T E : Type} (c : OnceCell T)
    (e : E) (v : T) (init1 init2 : Unit → Except E T)
    (hc : c.inner = { data := none, state := FREE })
    (h1 : init1 () = .error e) (h2 : init2 () = .ok v) :
    c.get_or_try_init init1
      = some ((.error e, ⟨{ data := none, state := FREE }⟩), true) ∧
    (⟨{ data := none, state := FREE }⟩ : OnceCell T).get_or_try_init init2
      = some ((.ok (some v), ⟨{ data := some v, state := AVAILABLE }⟩), true) := by
  obtain ⟨l⟩ := c
  subst hc
  constructor
  · simp [OnceCell.get_or_try_init, OnceCell.get, OptionLock.is_some,
      OptionLock.try_lock_none, OptionGuard.release, OptionGuard.drop_state,
      FREE, SOME, AVAILABLE, h1]
  · simp [OnceCell.get_or_try_init, OnceCell.get, OptionLock.is_some,
      OptionLock.try_lock_none, OptionGuard.release, OptionGuard.drop_state,
      OptionGuard.replace, FREE, SOME, AVAILABLE, h2]

theorem c10_failed_init_leaves_cell_empty_witness :
    (OnceCell.mk (⟨none, 1⟩ : OptionLock Nat)).get_or_try_init
        (fun _ => (.error 0 : Except Nat Nat))
      = some ((.error 0, ⟨{ data := none, state := FREE }⟩), true) ∧
    (⟨{ data := none, state := FREE }⟩ : OnceCell Nat).get_or_try_init
        (fun _ => (.ok 4 : Except Nat Nat))
      = some ((.ok (some 4), ⟨{ data := some 4, state := AVAILABLE }⟩), true) :=
  c10_failed_init_leaves_cell_empty (OnceCell.mk (⟨none, 1⟩ : OptionLock Nat))
    0 4 (fun _ => .error 0) (fun _ => .ok 4) rfl rfl rfl
